import Mathlib

/-!
OptACC, `test_cases/simple-notime.c`: a shallow embedding of the only
translation unit of the repository.  Its `main` allocates a block `A` of `SIZE`
doubles, opens an OpenACC data region with `copyin(A[0:SIZE])`, reads
`omp_get_wtime()` into `t_start`, runs the loop `A[i] = i * i` for the `int`
index `i` from `0` up to `SIZE` as a `parallel loop` with `num_gangs(NUM_GANGS)`
and `vector_length(VECTOR_LENGTH)`, reads `omp_get_wtime()` into `t_end`,
leaves the data region and returns `0`.

Modelling choices.

* `int` is 32-bit two's complement; `i * i` is reduced modulo `2^32`
  (`wrapInt32`).
* A finite `double` is modelled by the rational number it denotes.  The
  conversion `int -> double` is exact (a 32-bit integer fits the 53-bit
  significand), so `intToDouble` is the inclusion of the integers.
* The world outside the translation unit is an `Env`: whether `malloc`
  succeeds, the indeterminate contents of the fresh block, the successive
  readings of `omp_get_wtime`, whether the device code works in the host's
  memory, and the order in which the accelerator runs the iterations of a
  `parallel loop` for given `num_gangs`, `vector_length` and trip count.
* The source does not fix the memory of the target.  On a device with its own
  memory `copyin` creates a device copy from the host block on entry of the
  data region and discards it on exit, nothing is copied back, and the loop
  inside the region stores to the copy only.  On shared memory (a
  shared-memory accelerator, the host used as the device, a build that ignores
  the directives) what the device code addresses as `A[0:SIZE]` is the host
  block itself, and the stores of the loop are stores to the host block.
* `NUM_GANGS` and `VECTOR_LENGTH` are not defined in the translation unit (they
  are supplied on the compiler command line); they are parameters of `main`.
-/

namespace OptACC

/-! ## Scalars -/

/-- The constant `#define SIZE 1048576`. -/
def SIZE : Nat := 1048576

/-- The constant `sizeof(double)`. -/
def sizeof_double : Nat := 8

/-- Reduction of a mathematical integer to the 32-bit two's complement `int`
with the same residue modulo `2^32`. -/
def wrapInt32 (z : Int) : Int := (z + 2147483648) % 4294967296 - 2147483648

/-- The `int` product `a * b`. -/
def intMul (a b : Int) : Int := wrapInt32 (a * b)

/-- A finite `double`, modelled by the rational number it denotes. -/
abbrev Double := ℚ

/-- The implicit conversion `int -> double` of the assignment `A[i] = i * i`. -/
def intToDouble (z : Int) : Double := (z : ℚ)

/-! ## The loop -/

/-- A block of `double`s addressed by index. -/
abbrev Buffer := Nat → Double

/-- The loop body `A[i] = i * i;` for the value `i` of the `int` loop variable. -/
def loopBody (i : Nat) (A : Buffer) : Buffer :=
  Function.update A i (intToDouble (intMul (i : Int) (i : Int)))

/-- Run the loop body once for each element of `order`, first to last. -/
def runIterations (order : List Nat) (A : Buffer) : Buffer :=
  order.foldl (fun buf i => loopBody i buf) A

/-- The loop `for (int i = 0; i < size; i++) { A[i] = i * i; }` run on one
thread: iterations `0, 1, ..., size - 1` in this order. -/
def sequentialLoop (size : Nat) (A : Buffer) : Buffer :=
  runIterations (List.range size) A

/-! ## The environment -/

/-- The calls that leave the translation unit, and the two directives. -/
inductive Event where
  | malloc (bytes : Nat) (ok : Bool)
  | dataEnter
  | wtime (reading : Double)
  | parallelLoop (gangs vlen : Nat)
  | dataExit
  | free
  deriving DecidableEq

/-- Everything `main` does not decide itself. -/
structure Env where
  /-- Whether `malloc` returns a block (else `NULL`). -/
  mallocSucceeds : Bool
  /-- The indeterminate contents of a fresh block. -/
  heapContents : Buffer
  /-- The reading of the `k`-th call of `omp_get_wtime`, counted from `0`. -/
  wtime : Nat → Double
  /-- Whether the device code works in the host's memory: a shared-memory
  accelerator, the host used as the device, or a build in which the directives
  are ignored.  Otherwise the device has a memory of its own. -/
  sharedMemory : Bool
  /-- The order in which the device runs the iterations of a parallel loop of
  `size` iterations launched with `gangs` gangs of `vlen` lanes. -/
  schedule : (gangs vlen size : Nat) → List Nat

/-- A device runs every iteration of a parallel loop exactly once whenever the
launch parameters are positive. -/
def Env.ValidSchedule (e : Env) : Prop :=
  ∀ gangs vlen size, 0 < gangs → 0 < vlen →
    (e.schedule gangs vlen size).Perm (List.range size)

/-- A timer whose successive readings never decrease. -/
def Env.MonotoneTimer (e : Env) : Prop :=
  ∀ j k, j ≤ k → e.wtime j ≤ e.wtime k

/-- A concrete partition: iterations are cut into blocks of `vlen` consecutive
indices, block `b` is given to gang `b % gangs`, and the gangs are listed one
after the other. -/
def blockCyclic (gangs vlen size : Nat) : List Nat :=
  (List.range gangs).flatMap
    (fun k => (List.range size).filter (fun i => decide ((i / vlen) % gangs = k)))

/-! ## Program state -/

/-- Host heap, device memory, timer and the history of calls. -/
structure State where
  /-- The host block `A` points to; `none` when `A` is `NULL`. -/
  A : Option Buffer
  /-- Whether the block obtained from `malloc` is still allocated. -/
  hostLive : Bool
  /-- The number of `free` calls so far. -/
  frees : Nat
  /-- What the device code addresses as `A[0:SIZE]` while the data region is
  open: the device-resident copy on a device with its own memory, the contents
  of the host block itself on shared memory. -/
  device : Option Buffer
  /-- The number of `omp_get_wtime` calls so far. -/
  clockReads : Nat
  /-- The calls and directives executed so far, oldest first. -/
  trace : List Event

/-- The state at the entry of `main`. -/
def State.init : State :=
  { A := none, hostLive := false, frees := 0, device := none, clockReads := 0, trace := [] }

/-- The call `malloc(bytes)`: on success `A` points to a fresh block of
indeterminate contents, on failure `A` is `NULL`. -/
def malloc (e : Env) (bytes : Nat) (s : State) : State :=
  if e.mallocSucceeds then
    { s with A := some e.heapContents, hostLive := true,
             trace := s.trace ++ [Event.malloc bytes true] }
  else
    { s with A := none, trace := s.trace ++ [Event.malloc bytes false] }

/-- The library call `free(A)` of `stdlib.h`. -/
def free (s : State) : State :=
  { s with A := none, hostLive := false, frees := s.frees + 1,
           trace := s.trace ++ [Event.free] }

/-- Entry of `#pragma acc data copyin(A[0:SIZE])`: from here on the device code
has `A[0:SIZE]` with the contents of the host block, as a fresh copy on a
device with its own memory and as the host block itself on shared memory; for
a null pointer it has nothing. -/
def acc_data_copyin (s : State) : State :=
  { s with device := s.A, trace := s.trace ++ [Event.dataEnter] }

/-- Exit of the data region: the device no longer has `A[0:SIZE]`; a `copyin`
copy is deleted without copying back, so the exit stores nothing to the host
block. -/
def acc_data_exit (s : State) : State :=
  { s with device := none, trace := s.trace ++ [Event.dataExit] }

/-- The call `omp_get_wtime()`. -/
def omp_get_wtime (e : Env) (s : State) : Double × State :=
  (e.wtime s.clockReads,
   { s with clockReads := s.clockReads + 1,
            trace := s.trace ++ [Event.wtime (e.wtime s.clockReads)] })

/-- The construct
`#pragma acc parallel loop num_gangs(gangs), vector_length(vlen)` over
`for (int i = 0; i < size; i++) { A[i] = i * i; }` inside the data region: the
iterations run in the order the device chooses on what the device has as
`A[0:SIZE]`.  On shared memory that is the host block, whose contents change
with it; on a device with its own memory the host block is not touched.
Without anything to address (`A` is `NULL`) the writes `A[i] = ...` have no
defined behaviour: `none`. -/
def acc_parallel_loop (e : Env) (gangs vlen size : Nat) (s : State) : Option State :=
  match s.device with
  | none => none
  | some d =>
    some { s with device := some (runIterations (e.schedule gangs vlen size) d),
                  A := if e.sharedMemory then
                         some (runIterations (e.schedule gangs vlen size) d)
                       else s.A,
                  trace := s.trace ++ [Event.parallelLoop gangs vlen] }

/-! ## `main` -/

/-- What a run of `main` leaves behind. -/
structure Outcome where
  /-- The value returned by `main`; `none` when the run met undefined behaviour. -/
  exitCode : Option Int
  /-- The local `t_start`, once assigned. -/
  t_start : Option Double
  /-- The local `t_end`, once assigned. -/
  t_end : Option Double
  /-- The state when `main` returned, or when the behaviour stopped being defined. -/
  final : State

/-- The state in which the data region is entered: after
`double *A = (double *)malloc(sizeof(double) * SIZE);`. -/
def mainAtScopeEntry (e : Env) : State :=
  malloc e (sizeof_double * SIZE) State.init

/-- The value of `t_start` and the state in which the parallel loop is launched. -/
def mainBeforeLoop (e : Env) : Double × State :=
  omp_get_wtime e (acc_data_copyin (mainAtScopeEntry e))

/-- The state when the parallel loop has completed. -/
def mainAfterLoop (e : Env) (NUM_GANGS VECTOR_LENGTH : Nat) : Option State :=
  acc_parallel_loop e NUM_GANGS VECTOR_LENGTH SIZE (mainBeforeLoop e).2

/-- The function `main`. -/
def main (e : Env) (NUM_GANGS VECTOR_LENGTH : Nat) : Outcome :=
  let s3 := mainBeforeLoop e
  match mainAfterLoop e NUM_GANGS VECTOR_LENGTH with
  | none => { exitCode := none, t_start := some s3.1, t_end := none, final := s3.2 }
  | some s4 =>
    let s5 := omp_get_wtime e s4
    let s6 := acc_data_exit s5.2
    { exitCode := some 0, t_start := some s3.1, t_end := some s5.1, final := s6 }

/-! ## Sample environments -/

/-- A host where `malloc` succeeds, fresh memory reads as zero, the timer
counts its own calls, and the device has its own memory and partitions
iterations block-cyclically. -/
def sampleEnv : Env :=
  { mallocSucceeds := true, heapContents := fun _ => 0,
    wtime := fun k => (k : ℚ), sharedMemory := false, schedule := blockCyclic }

/-- The host of `sampleEnv` with the device code working in the host's memory. -/
def sharedMemoryEnv : Env :=
  { sampleEnv with sharedMemory := true }

/-- The host of `sampleEnv` with an allocator that always fails. -/
def failingAllocEnv : Env :=
  { sampleEnv with mallocSucceeds := false }

/-! ## Arithmetic of the loop body -/

theorem wrapInt32_of_fits (z : Int) (h0 : 0 ≤ z) (h1 : z < 2147483648) : wrapInt32 z = z := by
  unfold wrapInt32
  omega

theorem wrapInt32_lt (z : Int) : wrapInt32 z < 2147483648 := by
  unfold wrapInt32
  omega

theorem sq_fits_of_le (i : Nat) (h : i ≤ 46340) : ((i : Int) * (i : Int)) < 2147483648 := by
  have h1 : i * i ≤ 46340 * 46340 := Nat.mul_le_mul h h
  have h2 : ((i * i : Nat) : Int) ≤ ((46340 * 46340 : Nat) : Int) := by exact_mod_cast h1
  push_cast at h2
  omega

theorem sq_large_of_gt (i : Nat) (h : 46340 < i) : (2147483648 : Int) ≤ (i : Int) * (i : Int) := by
  have h1 : 46341 * 46341 ≤ i * i := Nat.mul_le_mul h h
  have h2 : ((46341 * 46341 : Nat) : Int) ≤ ((i * i : Nat) : Int) := by exact_mod_cast h1
  push_cast at h2
  omega

theorem intMul_self_of_le (i : Nat) (h : i ≤ 46340) : intMul (i : Int) (i : Int) = (i : Int) * (i : Int) := by
  unfold intMul
  exact wrapInt32_of_fits _ (mul_nonneg (Int.ofNat_nonneg i) (Int.ofNat_nonneg i)) (sq_fits_of_le i h)

theorem intMul_self_eq_iff (i : Nat) : intMul (i : Int) (i : Int) = (i : Int) ^ 2 ↔ i ≤ 46340 := by
  constructor
  · intro h
    by_contra hc
    have hbig := sq_large_of_gt i (by omega)
    have hlt := wrapInt32_lt ((i : Int) * (i : Int))
    unfold intMul at h
    rw [pow_two] at h
    omega
  · intro h
    rw [pow_two]
    exact intMul_self_of_le i h

/-! ## The loop as a function of the iteration order -/

theorem loopBody_same (i : Nat) (A : Buffer) :
    loopBody i A i = intToDouble (intMul (i : Int) (i : Int)) := by
  simp [loopBody]

theorem loopBody_other (i j : Nat) (A : Buffer) (h : j ≠ i) : loopBody i A j = A j := by
  simp [loopBody, Function.update, h]

theorem runIterations_apply (order : List Nat) (A : Buffer) (j : Nat) :
    runIterations order A j
      = if j ∈ order then intToDouble (intMul (j : Int) (j : Int)) else A j := by
  induction order generalizing A with
  | nil => simp [runIterations]
  | cons i t ih =>
    have hstep : runIterations (i :: t) A = runIterations t (loopBody i A) := rfl
    rw [hstep, ih]
    by_cases hjt : j ∈ t
    · simp [hjt]
    · by_cases hji : j = i
      · subst hji
        simp [hjt, loopBody_same]
      · simp [hjt, hji, loopBody_other _ _ _ hji]

theorem runIterations_perm (order : List Nat) (size : Nat) (A : Buffer)
    (h : order.Perm (List.range size)) :
    runIterations order A = sequentialLoop size A := by
  funext j
  unfold sequentialLoop
  rw [runIterations_apply, runIterations_apply]
  simp only [h.mem_iff]

theorem runIterations_perm_apply (order : List Nat) (size : Nat) (A : Buffer)
    (h : order.Perm (List.range size)) (j : Nat) (hj : j < size) :
    runIterations order A j = intToDouble (intMul (j : Int) (j : Int)) := by
  rw [runIterations_apply]
  simp [h.mem_iff, hj]

/-! ## The block-cyclic partition runs every iteration once -/

theorem count_filter_eq (p : Nat → Bool) (l : List Nat) (a : Nat) :
    (l.filter p).count a = if p a then l.count a else 0 := by
  by_cases h : p a = true
  · simp [h, List.count_filter]
  · have hnot : a ∉ l.filter p := by
      intro hmem
      exact h (List.mem_filter.mp hmem).2
    simp [h, List.count_eq_zero_of_not_mem hnot]

theorem sum_single_gang (c m : Nat) (g : Nat) :
    ((List.range g).map (fun k => if m = k then c else 0)).sum = if m < g then c else 0 := by
  induction g with
  | zero => simp
  | succ n ih =>
    rw [List.range_succ, List.map_append, List.sum_append, ih]
    by_cases h1 : m < n
    · have h2 : m ≠ n := by omega
      have h3 : m < n + 1 := by omega
      simp [h1, h2, h3]
    · by_cases h2 : m = n
      · subst h2
        simp
      · have h3 : ¬ m < n + 1 := by omega
        simp [h1, h2, h3]

theorem blockCyclic_perm (gangs vlen size : Nat) (hg : 0 < gangs) :
    (blockCyclic gangs vlen size).Perm (List.range size) := by
  rw [List.perm_iff_count]
  intro a
  unfold blockCyclic
  rw [List.count_flatMap]
  have hfun : (List.count a ∘ fun k =>
        (List.range size).filter (fun i => decide ((i / vlen) % gangs = k)))
      = fun k => if (a / vlen) % gangs = k then (List.range size).count a else 0 := by
    funext k
    simp [Function.comp, count_filter_eq]
  rw [hfun, sum_single_gang]
  simp [Nat.mod_lt _ hg]

/-! ## The two runs of `main` -/

theorem mainBeforeLoop_success (e : Env) (h : e.mallocSucceeds = true) :
    mainBeforeLoop e
      = (e.wtime 0,
         { A := some e.heapContents, hostLive := true, frees := 0,
           device := some e.heapContents, clockReads := 1,
           trace := [Event.malloc (sizeof_double * SIZE) true, Event.dataEnter,
                     Event.wtime (e.wtime 0)] }) := by
  simp [mainBeforeLoop, mainAtScopeEntry, malloc, acc_data_copyin, omp_get_wtime, State.init, h]

theorem mainBeforeLoop_failure (e : Env) (h : e.mallocSucceeds = false) :
    mainBeforeLoop e
      = (e.wtime 0,
         { A := none, hostLive := false, frees := 0, device := none, clockReads := 1,
           trace := [Event.malloc (sizeof_double * SIZE) false, Event.dataEnter,
                     Event.wtime (e.wtime 0)] }) := by
  simp [mainBeforeLoop, mainAtScopeEntry, malloc, acc_data_copyin, omp_get_wtime, State.init, h]

theorem mainAfterLoop_success (e : Env) (g v : Nat) (h : e.mallocSucceeds = true) :
    mainAfterLoop e g v
      = some { A := if e.sharedMemory then
                      some (runIterations (e.schedule g v SIZE) e.heapContents)
                    else some e.heapContents,
               hostLive := true, frees := 0,
               device := some (runIterations (e.schedule g v SIZE) e.heapContents),
               clockReads := 1,
               trace := [Event.malloc (sizeof_double * SIZE) true, Event.dataEnter,
                         Event.wtime (e.wtime 0), Event.parallelLoop g v] } := by
  simp [mainAfterLoop, mainBeforeLoop_success e h, acc_parallel_loop]

theorem mainAfterLoop_failure (e : Env) (g v : Nat) (h : e.mallocSucceeds = false) :
    mainAfterLoop e g v = none := by
  simp [mainAfterLoop, mainBeforeLoop_failure e h, acc_parallel_loop]

theorem main_success (e : Env) (g v : Nat) (h : e.mallocSucceeds = true) :
    main e g v
      = { exitCode := some 0, t_start := some (e.wtime 0), t_end := some (e.wtime 1),
          final :=
            { A := if e.sharedMemory then
                     some (runIterations (e.schedule g v SIZE) e.heapContents)
                   else some e.heapContents,
              hostLive := true, frees := 0, device := none,
              clockReads := 2,
              trace := [Event.malloc (sizeof_double * SIZE) true, Event.dataEnter,
                        Event.wtime (e.wtime 0), Event.parallelLoop g v,
                        Event.wtime (e.wtime 1), Event.dataExit] } } := by
  simp [main, mainAfterLoop_success e g v h, mainBeforeLoop_success e h, omp_get_wtime,
    acc_data_exit]

theorem main_failure (e : Env) (g v : Nat) (h : e.mallocSucceeds = false) :
    main e g v
      = { exitCode := none, t_start := some (e.wtime 0), t_end := none,
          final :=
            { A := none, hostLive := false, frees := 0, device := none, clockReads := 1,
              trace := [Event.malloc (sizeof_double * SIZE) false, Event.dataEnter,
                        Event.wtime (e.wtime 0)] } } := by
  simp [main, mainAfterLoop_failure e g v h, mainBeforeLoop_failure e h]

theorem sampleEnv_validSchedule : sampleEnv.ValidSchedule := by
  intro g v n hg _
  exact blockCyclic_perm g v n hg

theorem sharedMemoryEnv_validSchedule : sharedMemoryEnv.ValidSchedule := by
  intro g v n hg _
  exact blockCyclic_perm g v n hg

theorem sampleEnv_monotoneTimer : sampleEnv.MonotoneTimer := by
  intro j k hjk
  show ((j : ℚ)) ≤ ((k : ℚ))
  exact_mod_cast hjk

theorem intMul_46341 : intMul 46341 46341 = -2147479015 := by
  unfold intMul wrapInt32
  norm_num

theorem intMul_65536 : intMul 65536 65536 = 0 := by
  unfold intMul wrapInt32
  norm_num

/-! ## C1: the squares in the buffer -/

/-- C1 fails on the code at index `46341`, with `NUM_GANGS = 1` and
`VECTOR_LENGTH = 1`.  The bound `46341 < SIZE` holds and the loop body stores
the `int` product `-2147479015`, not the square `46341 * 46341 = 2147488281`,
whatever the buffer held.  On the host with shared memory `main` returns `0`
and the host block `A` holds that value at index `46341`; on the host whose
device has its own memory the buffer the loop has written holds it there. -/
theorem C1_square_overflows_at_46341 :
    46341 < SIZE ∧
    (∀ A : Buffer, loopBody 46341 A 46341 = -2147479015 ∧
      loopBody 46341 A 46341 ≠ (46341 : ℚ) * 46341) ∧
    ((main sharedMemoryEnv 1 1).exitCode = some 0 ∧
      ∃ hostA, (main sharedMemoryEnv 1 1).final.A = some hostA ∧
        hostA 46341 = -2147479015 ∧ hostA 46341 ≠ (46341 : ℚ) * 46341) ∧
    (∃ s d, mainAfterLoop sampleEnv 1 1 = some s ∧ s.device = some d ∧
      d 46341 = -2147479015 ∧ d 46341 ≠ (46341 : ℚ) * 46341) := by
  have hmul : intToDouble (intMul ((46341 : Nat) : Int) ((46341 : Nat) : Int))
      = -2147479015 := by
    have h := intMul_46341
    simp only [Nat.cast_ofNat]
    rw [h]
    simp [intToDouble]
  have hne : (-2147479015 : ℚ) ≠ (46341 : ℚ) * 46341 := by norm_num
  have hshared : runIterations (sharedMemoryEnv.schedule 1 1 SIZE)
      sharedMemoryEnv.heapContents 46341 = -2147479015 := by
    rw [runIterations_perm_apply _ SIZE _
      (sharedMemoryEnv_validSchedule 1 1 SIZE (by decide) (by decide)) 46341 (by decide)]
    exact hmul
  have hsep : runIterations (sampleEnv.schedule 1 1 SIZE)
      sampleEnv.heapContents 46341 = -2147479015 := by
    rw [runIterations_perm_apply _ SIZE _
      (sampleEnv_validSchedule 1 1 SIZE (by decide) (by decide)) 46341 (by decide)]
    exact hmul
  refine ⟨by decide, ?_, ⟨?_, ?_⟩, ?_⟩
  · intro A
    rw [loopBody_same, hmul]
    exact ⟨rfl, hne⟩
  · rw [main_success sharedMemoryEnv 1 1 rfl]
  · refine ⟨runIterations (sharedMemoryEnv.schedule 1 1 SIZE) sharedMemoryEnv.heapContents,
      ?_, hshared, ?_⟩
    · rw [main_success sharedMemoryEnv 1 1 rfl]
      rfl
    · rw [hshared]
      exact hne
  · refine ⟨_, _, mainAfterLoop_success sampleEnv 1 1 rfl, rfl, hsep, ?_⟩
    rw [hsep]
    exact hne

/-! ## C2: the launch parameters do not change the result -/

/-- C2.  On a device that runs every iteration once, two launches with positive
`(NUM_GANGS, VECTOR_LENGTH)` pairs give the same buffer: for the loop over any
fixed size from any starting block, and for the device copy that `main` has
when its parallel loop has completed. -/
theorem C2_result_independent_of_parallelism (e : Env) (g v g2 v2 : Nat)
    (hs : e.ValidSchedule) (hm : e.mallocSucceeds = true)
    (hg : 0 < g) (hv : 0 < v) (hg2 : 0 < g2) (hv2 : 0 < v2) :
    (∀ (size : Nat) (A : Buffer),
      runIterations (e.schedule g v size) A = runIterations (e.schedule g2 v2 size) A) ∧
    (∃ s s2 d, mainAfterLoop e g v = some s ∧ mainAfterLoop e g2 v2 = some s2 ∧
      s.device = some d ∧ s2.device = some d) := by
  have hloop : ∀ (size : Nat) (A : Buffer),
      runIterations (e.schedule g v size) A = runIterations (e.schedule g2 v2 size) A := by
    intro size A
    rw [runIterations_perm _ size A (hs g v size hg hv),
      runIterations_perm _ size A (hs g2 v2 size hg2 hv2)]
  refine ⟨hloop, _, _, _, mainAfterLoop_success e g v hm, mainAfterLoop_success e g2 v2 hm,
    rfl, ?_⟩
  simp only [hloop SIZE e.heapContents]

/-- Witness of C2: the sample host, `(1, 1)` against `(8, 128)`. -/
theorem C2_result_independent_of_parallelism_witness :
    (∀ (size : Nat) (A : Buffer),
      runIterations (sampleEnv.schedule 1 1 size) A
        = runIterations (sampleEnv.schedule 8 128 size) A) ∧
    (∃ s s2 d, mainAfterLoop sampleEnv 1 1 = some s ∧ mainAfterLoop sampleEnv 8 128 = some s2 ∧
      s.device = some d ∧ s2.device = some d) :=
  C2_result_independent_of_parallelism sampleEnv 1 1 8 128 sampleEnv_validSchedule rfl
    (by decide) (by decide) (by decide) (by decide)

/-! ## C3: a failed allocation -/

/-- C3, as stated, fails.  With an allocator that fails, `main` still enters
the data region, and it does not return a nonzero code. -/
theorem C3_counterexample :
    Event.dataEnter ∈ (main failingAllocEnv 1 1).final.trace ∧
    ¬ (∃ c : Int, (main failingAllocEnv 1 1).exitCode = some c ∧ c ≠ 0) := by
  rw [main_failure failingAllocEnv 1 1 rfl]
  simp

/-- C3, amended.  When `malloc` yields no buffer, `main` does not test the
pointer: after the failed `malloc` it enters the data region and reads the
timer, nothing else is called, and the loop then writes through the null
pointer, so the run has no defined return value.  On no run does `main` return
a value other than `0`. -/
theorem C3_allocation_failure_unchecked (e : Env) (NUM_GANGS VECTOR_LENGTH : Nat)
    (hm : e.mallocSucceeds = false) :
    (main e NUM_GANGS VECTOR_LENGTH).final.trace
      = [Event.malloc (sizeof_double * SIZE) false, Event.dataEnter, Event.wtime (e.wtime 0)] ∧
    (main e NUM_GANGS VECTOR_LENGTH).exitCode = none ∧
    (∀ (e2 : Env) (g v : Nat) (c : Int), (main e2 g v).exitCode = some c → c = 0) := by
  refine ⟨?_, ?_, ?_⟩
  · rw [main_failure e NUM_GANGS VECTOR_LENGTH hm]
  · rw [main_failure e NUM_GANGS VECTOR_LENGTH hm]
  · intro e2 g v c hc
    cases h2 : e2.mallocSucceeds with
    | true =>
      rw [main_success e2 g v h2] at hc
      simp at hc
      exact hc.symm
    | false =>
      rw [main_failure e2 g v h2] at hc
      simp at hc

/-- Witness of C3 amended: the sample host with the failing allocator. -/
theorem C3_allocation_failure_unchecked_witness :
    (main failingAllocEnv 1 1).final.trace
      = [Event.malloc (sizeof_double * SIZE) false, Event.dataEnter,
         Event.wtime (failingAllocEnv.wtime 0)] ∧
    (main failingAllocEnv 1 1).exitCode = none ∧
    (∀ (e2 : Env) (g v : Nat) (c : Int), (main e2 g v).exitCode = some c → c = 0) :=
  C3_allocation_failure_unchecked failingAllocEnv 1 1 rfl

/-! ## C4: release of the resources -/

/-- C4, as stated, fails.  On the sample host `main` returns `0` with the host
block still allocated: `free` was called zero times, not once. -/
theorem C4_counterexample :
    (main sampleEnv 1 1).exitCode = some 0 ∧
    (main sampleEnv 1 1).final.hostLive = true ∧
    (main sampleEnv 1 1).final.frees ≠ 1 ∧
    (main sampleEnv 1 1).final.trace.count Event.free ≠ 1 := by
  rw [main_success sampleEnv 1 1 rfl]
  decide

/-- C4, amended.  When `malloc` succeeds, `main` returns `0`, at that point
there is no device copy, and `main` has not freed the host block: `free` was
never called (so there is no double free) and the block is still allocated. -/
theorem C4_device_released_host_never_freed (e : Env) (NUM_GANGS VECTOR_LENGTH : Nat)
    (hm : e.mallocSucceeds = true) :
    (main e NUM_GANGS VECTOR_LENGTH).exitCode = some 0 ∧
    (main e NUM_GANGS VECTOR_LENGTH).final.device = none ∧
    (main e NUM_GANGS VECTOR_LENGTH).final.frees = 0 ∧
    Event.free ∉ (main e NUM_GANGS VECTOR_LENGTH).final.trace ∧
    (main e NUM_GANGS VECTOR_LENGTH).final.hostLive = true := by
  rw [main_success e NUM_GANGS VECTOR_LENGTH hm]
  simp

/-- Witness of C4 amended: the sample host, 4 gangs of 32 lanes. -/
theorem C4_device_released_host_never_freed_witness :
    (main sampleEnv 4 32).exitCode = some 0 ∧
    (main sampleEnv 4 32).final.device = none ∧
    (main sampleEnv 4 32).final.frees = 0 ∧
    Event.free ∉ (main sampleEnv 4 32).final.trace ∧
    (main sampleEnv 4 32).final.hostLive = true :=
  C4_device_released_host_never_freed sampleEnv 4 32 rfl

/-! ## C5: two sample elements -/

/-- C5.  When `malloc` succeeds and the device runs every iteration once, then
for positive `NUM_GANGS` and `VECTOR_LENGTH` the buffer of the transform (the
device copy, when the parallel loop has completed) holds `1000000` at index
`1000` and `0` at index `0`. -/
theorem C5_elements_1000_and_0 (e : Env) (NUM_GANGS VECTOR_LENGTH : Nat)
    (hm : e.mallocSucceeds = true) (hs : e.ValidSchedule)
    (hg : 0 < NUM_GANGS) (hv : 0 < VECTOR_LENGTH) :
    ∃ s d, mainAfterLoop e NUM_GANGS VECTOR_LENGTH = some s ∧ s.device = some d ∧
      d 1000 = 1000000 ∧ d 0 = 0 := by
  refine ⟨_, _, mainAfterLoop_success e NUM_GANGS VECTOR_LENGTH hm, rfl, ?_, ?_⟩
  · rw [runIterations_perm_apply _ SIZE _ (hs NUM_GANGS VECTOR_LENGTH SIZE hg hv) 1000
      (by decide), intMul_self_of_le 1000 (by decide)]
    norm_num [intToDouble]
  · rw [runIterations_perm_apply _ SIZE _ (hs NUM_GANGS VECTOR_LENGTH SIZE hg hv) 0
      (by decide), intMul_self_of_le 0 (by decide)]
    norm_num [intToDouble]

/-- Witness of C5: the sample host, 4 gangs of 32 lanes. -/
theorem C5_elements_1000_and_0_witness :
    ∃ s d, mainAfterLoop sampleEnv 4 32 = some s ∧ s.device = some d ∧
      d 1000 = 1000000 ∧ d 0 = 0 :=
  C5_elements_1000_and_0 sampleEnv 4 32 rfl sampleEnv_validSchedule (by decide) (by decide)

/-! ## C6: the two timestamps -/

/-- C6.  With a timer whose successive readings never decrease, whenever
`main` has assigned both `t_start` and `t_end` then `t_start <= t_end` and the
duration `t_end - t_start` is not negative; and when `malloc` succeeds both are
assigned. -/
theorem C6_timestamps_ordered (e : Env) (NUM_GANGS VECTOR_LENGTH : Nat)
    (ht : e.MonotoneTimer) :
    (∀ t0 t1 : Double, (main e NUM_GANGS VECTOR_LENGTH).t_start = some t0 →
      (main e NUM_GANGS VECTOR_LENGTH).t_end = some t1 → t0 ≤ t1 ∧ 0 ≤ t1 - t0) ∧
    (e.mallocSucceeds = true →
      ∃ t0 t1 : Double, (main e NUM_GANGS VECTOR_LENGTH).t_start = some t0 ∧
        (main e NUM_GANGS VECTOR_LENGTH).t_end = some t1 ∧ t0 ≤ t1 ∧ 0 ≤ t1 - t0) := by
  have h01 : e.wtime 0 ≤ e.wtime 1 := ht 0 1 (by decide)
  constructor
  · intro t0 t1 h0 h1
    cases hm : e.mallocSucceeds with
    | true =>
      rw [main_success e NUM_GANGS VECTOR_LENGTH hm] at h0 h1
      simp at h0 h1
      subst h0
      subst h1
      exact ⟨h01, sub_nonneg.mpr h01⟩
    | false =>
      rw [main_failure e NUM_GANGS VECTOR_LENGTH hm] at h1
      simp at h1
  · intro hm
    refine ⟨e.wtime 0, e.wtime 1, ?_, ?_, h01, sub_nonneg.mpr h01⟩
    · rw [main_success e NUM_GANGS VECTOR_LENGTH hm]
    · rw [main_success e NUM_GANGS VECTOR_LENGTH hm]

/-- Witness of C6: the sample host, whose timer counts its own calls. -/
theorem C6_timestamps_ordered_witness :
    (∀ t0 t1 : Double, (main sampleEnv 4 32).t_start = some t0 →
      (main sampleEnv 4 32).t_end = some t1 → t0 ≤ t1 ∧ 0 ≤ t1 - t0) ∧
    (sampleEnv.mallocSucceeds = true →
      ∃ t0 t1 : Double, (main sampleEnv 4 32).t_start = some t0 ∧
        (main sampleEnv 4 32).t_end = some t1 ∧ t0 ≤ t1 ∧ 0 ≤ t1 - t0) :=
  C6_timestamps_ordered sampleEnv 4 32 sampleEnv_monotoneTimer

/-! ## C7: the product is an `int` product -/

/-- C7.  For every `i < SIZE` the `int` product `i * i`, reduced modulo `2^32`
to a signed 32-bit value, equals the square of `i` exactly when `i <= 46340`,
and so does the value the loop body stores at index `i`; at `i = 46341` the
product is `-2147479015` and at `i = 65536` it is `0`.  The `int` loop variable
itself holds `i` without wrapping. -/
theorem C7_int_product_wraps (i : Nat) (hi : i < SIZE) :
    wrapInt32 (i : Int) = (i : Int) ∧
    (intMul (i : Int) (i : Int) = (i : Int) ^ 2 ↔ i ≤ 46340) ∧
    (∀ A : Buffer, loopBody i A i = (i : ℚ) ^ 2 ↔ i ≤ 46340) ∧
    46341 < SIZE ∧ intMul 46341 46341 = -2147479015 ∧
    65536 < SIZE ∧ intMul 65536 65536 = 0 := by
  have hsize : SIZE = 1048576 := rfl
  refine ⟨wrapInt32_of_fits _ (Int.ofNat_nonneg i) (by omega), intMul_self_eq_iff i, ?_,
    by decide, intMul_46341, by decide, intMul_65536⟩
  intro A
  rw [loopBody_same, ← intMul_self_eq_iff i]
  unfold intToDouble
  constructor
  · intro h
    exact_mod_cast h
  · intro h
    exact_mod_cast h

/-- Witness of C7: the first index whose square does not fit. -/
theorem C7_int_product_wraps_witness :
    wrapInt32 ((46341 : Nat) : Int) = ((46341 : Nat) : Int) ∧
    (intMul ((46341 : Nat) : Int) ((46341 : Nat) : Int) = ((46341 : Nat) : Int) ^ 2
      ↔ 46341 ≤ 46340) ∧
    (∀ A : Buffer, loopBody 46341 A 46341 = ((46341 : Nat) : ℚ) ^ 2 ↔ 46341 ≤ 46340) ∧
    46341 < SIZE ∧ intMul 46341 46341 = -2147479015 ∧
    65536 < SIZE ∧ intMul 65536 65536 = 0 :=
  C7_int_product_wraps 46341 (by decide)

/-! ## C8: the iterations commute -/

/-- C8.  Let `order` be any arrangement of the indices `0, ..., SIZE - 1`.
Every index below `SIZE` occurs in it once, iteration `i` changes no slot but
`i`, the value it stores there is the same whatever the buffer holds, and
running the iterations in this order gives the same buffer as the sequential
order `0, 1, ..., SIZE - 1`. -/
theorem C8_iteration_order_irrelevant (order : List Nat)
    (hp : order.Perm (List.range SIZE)) :
    (∀ i, i < SIZE → order.count i = 1) ∧
    (∀ (i j : Nat) (A : Buffer), j ≠ i → loopBody i A j = A j) ∧
    (∀ (i : Nat) (A B : Buffer), loopBody i A i = loopBody i B i) ∧
    (∀ A : Buffer, runIterations order A = sequentialLoop SIZE A) := by
  refine ⟨?_, ?_, ?_, ?_⟩
  · intro i hi
    rw [hp.count_eq]
    exact List.count_eq_one_of_mem (List.nodup_range SIZE) (List.mem_range.mpr hi)
  · intro i j A hne
    exact loopBody_other i j A hne
  · intro i A B
    rw [loopBody_same, loopBody_same]
  · intro A
    exact runIterations_perm order SIZE A hp

/-- Witness of C8: the iterations taken from the last index down to the first. -/
theorem C8_iteration_order_irrelevant_witness :
    (∀ i, i < SIZE → (List.range SIZE).reverse.count i = 1) ∧
    (∀ (i j : Nat) (A : Buffer), j ≠ i → loopBody i A j = A j) ∧
    (∀ (i : Nat) (A B : Buffer), loopBody i A i = loopBody i B i) ∧
    (∀ A : Buffer, runIterations (List.range SIZE).reverse A = sequentialLoop SIZE A) :=
  C8_iteration_order_irrelevant (List.range SIZE).reverse (List.reverse_perm _)

/-! ## C9: where the timestamps are taken -/

/-- C9.  When `malloc` succeeds, the calls of `main` are, in this order and
with nothing else between them: `malloc`, the entry of the data region, the
timer read that gives `t_start`, the parallel loop, the timer read that gives
`t_end`, the exit of the data region. -/
theorem C9_timestamps_bracket_the_loop (e : Env) (NUM_GANGS VECTOR_LENGTH : Nat)
    (hm : e.mallocSucceeds = true) :
    ∃ t0 t1 : Double,
      (main e NUM_GANGS VECTOR_LENGTH).t_start = some t0 ∧
      (main e NUM_GANGS VECTOR_LENGTH).t_end = some t1 ∧
      (main e NUM_GANGS VECTOR_LENGTH).final.trace
        = [Event.malloc (sizeof_double * SIZE) true, Event.dataEnter]
          ++ [Event.wtime t0, Event.parallelLoop NUM_GANGS VECTOR_LENGTH, Event.wtime t1]
          ++ [Event.dataExit] ∧
      (∃ s, mainAfterLoop e NUM_GANGS VECTOR_LENGTH = some s ∧
        s.trace = [Event.malloc (sizeof_double * SIZE) true, Event.dataEnter,
                   Event.wtime t0, Event.parallelLoop NUM_GANGS VECTOR_LENGTH] ∧
        s.device.isSome = true) := by
  refine ⟨e.wtime 0, e.wtime 1, ?_, ?_, ?_, _,
    mainAfterLoop_success e NUM_GANGS VECTOR_LENGTH hm, rfl, rfl⟩
  · rw [main_success e NUM_GANGS VECTOR_LENGTH hm]
  · rw [main_success e NUM_GANGS VECTOR_LENGTH hm]
  · rw [main_success e NUM_GANGS VECTOR_LENGTH hm]
    rfl

/-- Witness of C9: the sample host, 4 gangs of 32 lanes. -/
theorem C9_timestamps_bracket_the_loop_witness :
    ∃ t0 t1 : Double,
      (main sampleEnv 4 32).t_start = some t0 ∧
      (main sampleEnv 4 32).t_end = some t1 ∧
      (main sampleEnv 4 32).final.trace
        = [Event.malloc (sizeof_double * SIZE) true, Event.dataEnter]
          ++ [Event.wtime t0, Event.parallelLoop 4 32, Event.wtime t1]
          ++ [Event.dataExit] ∧
      (∃ s, mainAfterLoop sampleEnv 4 32 = some s ∧
        s.trace = [Event.malloc (sizeof_double * SIZE) true, Event.dataEnter,
                   Event.wtime t0, Event.parallelLoop 4 32] ∧
        s.device.isSome = true) :=
  C9_timestamps_bracket_the_loop sampleEnv 4 32 rfl

/-! ## C10: the host block and the loop -/

/-- C10, as stated, fails.  On the host with shared memory, with
`NUM_GANGS = 1` and `VECTOR_LENGTH = 1`, the host block holds `0` at index `3`
when the data region is entered and `9` when `main` has returned `0`. -/
theorem C10_counterexample :
    ∃ before after : Buffer,
      (mainAtScopeEntry sharedMemoryEnv).A = some before ∧
      (main sharedMemoryEnv 1 1).exitCode = some 0 ∧
      (main sharedMemoryEnv 1 1).final.A = some after ∧
      before 3 = 0 ∧ after 3 = 9 ∧ after 3 ≠ before 3 := by
  have hafter : runIterations (sharedMemoryEnv.schedule 1 1 SIZE)
      sharedMemoryEnv.heapContents 3 = 9 := by
    rw [runIterations_perm_apply _ SIZE _
      (sharedMemoryEnv_validSchedule 1 1 SIZE (by decide) (by decide)) 3 (by decide),
      intMul_self_of_le 3 (by decide)]
    norm_num [intToDouble]
  refine ⟨sharedMemoryEnv.heapContents,
    runIterations (sharedMemoryEnv.schedule 1 1 SIZE) sharedMemoryEnv.heapContents,
    ?_, ?_, ?_, rfl, hafter, ?_⟩
  · simp [mainAtScopeEntry, malloc, sharedMemoryEnv, sampleEnv]
  · rw [main_success sharedMemoryEnv 1 1 rfl]
  · rw [main_success sharedMemoryEnv 1 1 rfl]
    rfl
  · rw [hafter]
    show (9 : ℚ) ≠ 0
    norm_num

/-- C10, amended.  On a device with its own memory, when `malloc` succeeds:
the device copy is made from the host block at the entry of the data region,
the loop's writes are in the device copy and not in the host block, the device
copy is dropped at the exit with nothing copied back, and the host block has
the same contents when the loop has completed and when `main` returns `0` as it
had when the data region was entered. -/
theorem C10_separate_memory_leaves_host_unchanged (e : Env) (NUM_GANGS VECTOR_LENGTH : Nat)
    (hm : e.mallocSucceeds = true) (hd : e.sharedMemory = false) :
    ∃ hostA : Buffer,
      (mainAtScopeEntry e).A = some hostA ∧
      (acc_data_copyin (mainAtScopeEntry e)).device = some hostA ∧
      (∃ s, mainAfterLoop e NUM_GANGS VECTOR_LENGTH = some s ∧ s.A = some hostA ∧
        s.device = some (runIterations (e.schedule NUM_GANGS VECTOR_LENGTH SIZE) hostA)) ∧
      (main e NUM_GANGS VECTOR_LENGTH).exitCode = some 0 ∧
      (main e NUM_GANGS VECTOR_LENGTH).final.A = some hostA ∧
      (main e NUM_GANGS VECTOR_LENGTH).final.device = none := by
  have hentry : (mainAtScopeEntry e).A = some e.heapContents := by
    simp [mainAtScopeEntry, malloc, hm]
  refine ⟨e.heapContents, hentry, ?_,
    ⟨_, mainAfterLoop_success e NUM_GANGS VECTOR_LENGTH hm, ?_, rfl⟩, ?_, ?_, ?_⟩
  · simp [acc_data_copyin, hentry]
  · simp [hd]
  · rw [main_success e NUM_GANGS VECTOR_LENGTH hm]
  · rw [main_success e NUM_GANGS VECTOR_LENGTH hm]
    simp [hd]
  · rw [main_success e NUM_GANGS VECTOR_LENGTH hm]

/-- Witness of C10 amended: the sample host, whose device has its own memory,
4 gangs of 32 lanes. -/
theorem C10_separate_memory_leaves_host_unchanged_witness :
    ∃ hostA : Buffer,
      (mainAtScopeEntry sampleEnv).A = some hostA ∧
      (acc_data_copyin (mainAtScopeEntry sampleEnv)).device = some hostA ∧
      (∃ s, mainAfterLoop sampleEnv 4 32 = some s ∧ s.A = some hostA ∧
        s.device = some (runIterations (sampleEnv.schedule 4 32 SIZE) hostA)) ∧
      (main sampleEnv 4 32).exitCode = some 0 ∧
      (main sampleEnv 4 32).final.A = some hostA ∧
      (main sampleEnv 4 32).final.device = none :=
  C10_separate_memory_leaves_host_unchanged sampleEnv 4 32 rfl rfl

end OptACC
